import Mathlib

/-!
Shallow embedding of rs-teledrop (src/main.rs): a CLI that uploads a local
file to the Telegram bot API (`sendDocument`), resolves the returned
document identifier to a storage path (`getFile`), and prints a download
URL.  The embedding models the constants, the config accessors, the serde
deserialization of the two response shapes, the multipart form construction
and the whole control flow of `main` as a pure function from its external
inputs (config load result, CLI argument, file-open and metadata results,
file contents, and the two HTTP response bodies) to an observable trace
(printed diagnostics, issued requests, process exit).
-/

namespace Teledrop

/-- Constant `API_URL_BASE` (main.rs line 50). -/
def API_URL_BASE : String := "https://api.telegram.org/bot"

/-- Constant `API_SEND_DOCUMENT` (main.rs line 51). -/
def API_SEND_DOCUMENT : String := "/sendDocument"

/-- Constant `API_GET_FILE` (main.rs line 52). -/
def API_GET_FILE : String := "/getFile"

/-- Constant `FILE_SIZE_LIMMIT` (sic, main.rs line 53): 20_000_000 bytes. -/
def FILE_SIZE_LIMMIT : Nat := 20000000

/-- Struct `Config` (main.rs lines 55-59). -/
structure Config where
  bot_token : String
  chat_id : String
deriving DecidableEq

/-- `Config::get_api_send_document` (main.rs lines 62-64):
`format!` of base, token, endpoint and the chat id query parameter. -/
def Config.get_api_send_document (c : Config) : String :=
  API_URL_BASE ++ c.bot_token ++ API_SEND_DOCUMENT ++ "?chat_id=" ++ c.chat_id

/-- `Config::get_api_get_file` (main.rs lines 65-67). -/
def Config.get_api_get_file (c : Config) : String :=
  API_URL_BASE ++ c.bot_token ++ API_GET_FILE

/-- `Config::get_api_file_url` (main.rs lines 68-70):
`format!("{}/file/{}/{}", API_URL_BASE, self.bot_token, file_path)`. -/
def Config.get_api_file_url (c : Config) (file_path : String) : String :=
  API_URL_BASE ++ "/file/" ++ c.bot_token ++ "/" ++ file_path

/-! ### JSON values and serde deserialization

`serde_json::from_str::<T>` first parses the body as JSON and then maps the
JSON value onto the struct `T`: a field without `Option` type must be
present with the right type, an `Option` field maps a missing or `null`
entry to `None`, and unknown fields are ignored (default serde behaviour,
no `deny_unknown_fields`).  We model a parsed JSON value as an inductive
and each derived `Deserialize` impl as a function `Json → Option T`. -/

/-- A JSON value (arrays are irrelevant to the structs below but kept for
completeness of the model of response bodies). -/
inductive Json where
  | null
  | bool (b : Bool)
  | num (n : Int)
  | str (s : String)
  | arr (elems : List Json)
  | obj (fields : List (String × Json))

/-- Field lookup in a JSON object; `none` on non-objects and missing keys. -/
def Json.lookupField : Json → String → Option Json
  | .obj fields, name => List.lookup name fields
  | _, _ => none

/-- Deserialize a `bool` field. -/
def Json.asBool : Json → Option Bool
  | .bool b => some b
  | _ => none

/-- Deserialize a `String` field. -/
def Json.asString : Json → Option String
  | .str s => some s
  | _ => none

/-- Deserialize an `i64` field: an integer in the i64 range. -/
def Json.asI64 : Json → Option Int
  | .num n => if -(2 ^ 63) ≤ n ∧ n < 2 ^ 63 then some n else none
  | _ => none

/-- Deserialize a `u64` field: a non-negative integer below 2^64. -/
def Json.asU64 : Json → Option Nat
  | .num n => if 0 ≤ n ∧ n < 2 ^ 64 then some n.toNat else none
  | _ => none

/-- Struct `TelegramUser` (main.rs lines 94-100).  The Rust field `from`
of `TelegramResult` has this type. -/
structure TelegramUser where
  id : Int
  is_bot : Bool
  first_name : String
  username : String
deriving DecidableEq

/-- Struct `TelegramChat` (main.rs lines 102-108); `type_` renders the Rust
raw identifier `r#type`, serialized under the JSON key `type`. -/
structure TelegramChat where
  id : Int
  first_name : String
  username : String
  type_ : String
deriving DecidableEq

/-- Struct `TelegramDocument` (main.rs lines 110-117). -/
structure TelegramDocument where
  file_name : String
  mime_type : String
  file_id : String
  file_unique_id : String
  file_size : Int
deriving DecidableEq

/-- Struct `TelegramResult` (main.rs lines 85-92); `from_` renders the Rust
field `from`, serialized under the JSON key `from`. -/
structure TelegramResult where
  message_id : Int
  from_ : TelegramUser
  chat : TelegramChat
  date : Int
  document : TelegramDocument
deriving DecidableEq

/-- Struct `TelegramResponseDocument` (main.rs lines 79-83): the upload
response envelope, with an optional `result`. -/
structure TelegramResponseDocument where
  ok : Bool
  result : Option TelegramResult
deriving DecidableEq

/-- Struct `FileUploadResult` (main.rs lines 132-138). -/
structure FileUploadResult where
  file_id : String
  file_unique_id : String
  file_size : Nat
  file_path : String
deriving DecidableEq

/-- Struct `FileUploadResponse` (main.rs lines 126-130): the `getFile`
response envelope; here `result` is NOT optional. -/
structure FileUploadResponse where
  ok : Bool
  result : FileUploadResult
deriving DecidableEq

/-- Derived `Deserialize` for `TelegramUser`. -/
def deserializeTelegramUser (j : Json) : Option TelegramUser := do
  let id ← (j.lookupField "id").bind Json.asI64
  let isBot ← (j.lookupField "is_bot").bind Json.asBool
  let firstName ← (j.lookupField "first_name").bind Json.asString
  let username ← (j.lookupField "username").bind Json.asString
  pure ⟨id, isBot, firstName, username⟩

/-- Derived `Deserialize` for `TelegramChat`. -/
def deserializeTelegramChat (j : Json) : Option TelegramChat := do
  let id ← (j.lookupField "id").bind Json.asI64
  let firstName ← (j.lookupField "first_name").bind Json.asString
  let username ← (j.lookupField "username").bind Json.asString
  let ty ← (j.lookupField "type").bind Json.asString
  pure ⟨id, firstName, username, ty⟩

/-- Derived `Deserialize` for `TelegramDocument`. -/
def deserializeTelegramDocument (j : Json) : Option TelegramDocument := do
  let fileName ← (j.lookupField "file_name").bind Json.asString
  let mimeType ← (j.lookupField "mime_type").bind Json.asString
  let fileId ← (j.lookupField "file_id").bind Json.asString
  let fileUniqueId ← (j.lookupField "file_unique_id").bind Json.asString
  let fileSize ← (j.lookupField "file_size").bind Json.asI64
  pure ⟨fileName, mimeType, fileId, fileUniqueId, fileSize⟩

/-- Derived `Deserialize` for `TelegramResult`: all five fields required. -/
def deserializeTelegramResult (j : Json) : Option TelegramResult := do
  let messageId ← (j.lookupField "message_id").bind Json.asI64
  let fromUser ← (j.lookupField "from").bind deserializeTelegramUser
  let chat ← (j.lookupField "chat").bind deserializeTelegramChat
  let date ← (j.lookupField "date").bind Json.asI64
  let document ← (j.lookupField "document").bind deserializeTelegramDocument
  pure ⟨messageId, fromUser, chat, date, document⟩

/-- Derived `Deserialize` for `TelegramResponseDocument`: `ok` required,
`result` optional (missing or `null` gives `none`). -/
def deserializeTelegramResponseDocument (j : Json) :
    Option TelegramResponseDocument := do
  let okFlag ← (j.lookupField "ok").bind Json.asBool
  match j.lookupField "result" with
  | none => pure ⟨okFlag, none⟩
  | some .null => pure ⟨okFlag, none⟩
  | some rj => do
      let r ← deserializeTelegramResult rj
      pure ⟨okFlag, some r⟩

/-- Derived `Deserialize` for `FileUploadResult`: all four fields required. -/
def deserializeFileUploadResult (j : Json) : Option FileUploadResult := do
  let fileId ← (j.lookupField "file_id").bind Json.asString
  let fileUniqueId ← (j.lookupField "file_unique_id").bind Json.asString
  let fileSize ← (j.lookupField "file_size").bind Json.asU64
  let filePath ← (j.lookupField "file_path").bind Json.asString
  pure ⟨fileId, fileUniqueId, fileSize, filePath⟩

/-- Derived `Deserialize` for `FileUploadResponse`: both fields required. -/
def deserializeFileUploadResponse (j : Json) : Option FileUploadResponse := do
  let okFlag ← (j.lookupField "ok").bind Json.asBool
  let result ← (j.lookupField "result").bind deserializeFileUploadResult
  pure ⟨okFlag, result⟩

/-- `serde_json::from_str::<TelegramResponseDocument>` applied to the upload
response text (main.rs line 272).  The argument is the JSON-parse of the
body: `none` when the body is not valid JSON, `some j` otherwise; both an
unparsable body and a shape mismatch yield `none` (the `Err` branch). -/
def parseUploadResponse : Option Json → Option TelegramResponseDocument
  | none => none
  | some j => deserializeTelegramResponseDocument j

/-- `serde_json::from_str::<FileUploadResponse>` applied to the `getFile`
response text (main.rs line 318). -/
def parseGetFileResponse : Option Json → Option FileUploadResponse
  | none => none
  | some j => deserializeFileUploadResponse j

/-! ### Multipart form -/

/-- The single multipart part of the upload request. -/
structure Part where
  name : String
  bytes : List Nat
  file_name : String
  mime : String
deriving DecidableEq

/-- Form construction (main.rs lines 196-203): one part named `document`
carrying the file contents with the hardcoded part file name
`filename.bin` and the hardcoded mime type `application/octet-stream`.
The CLI filename does not occur in this expression. -/
def buildUploadForm (contents : List Nat) : Part :=
  ⟨"document", contents, "filename.bin", "application/octet-stream"⟩

/-! ### The control flow of `main` -/

/-- The diagnostics `main` prints, one tag per `println!` site. -/
inductive Msg where
  | configError
  | missingBotToken
  | missingChatId
  | setupPrompt
  | noFilename
  | fileNotFound
  | fileTooBig
  | uploadingError
  | deserializeError
  | fileId (id : String)
  | serializeRequestFailed
  | downloadUrl (url : String)
deriving DecidableEq

/-- Whether a diagnostic is the printed download URL (main.rs line 322). -/
def Msg.isDownloadUrl : Msg → Bool
  | .downloadUrl _ => true
  | _ => false

/-- How the process ends: `code n` for a normal return from `main`
(`Ok(())` exits 0, a propagated `Err` exits 1) and `panicked` for a panic
such as `Option::unwrap` on `None`. -/
inductive ProcExit where
  | code (n : Nat)
  | panicked
deriving DecidableEq

/-- The external inputs of one run of `main`:
`config` is the `confy::load` result (`none` = load error);
`arg1` is `env::args().nth(1)`;
`fileOpens` tells whether `File::open` succeeded;
`metadataLen` is `file.metadata().map(m.len)` (`none` = metadata error);
`contents` are the bytes `read_to_end` yields;
`uploadBody` and `resolveBody` are the two HTTP response texts after JSON
parsing (`none` = body not valid JSON). -/
structure MainInputs where
  config : Option Config
  arg1 : Option String
  fileOpens : Bool
  metadataLen : Option Nat
  contents : List Nat
  uploadBody : Option Json
  resolveBody : Option Json

/-- The observable trace of one run: the printed diagnostics in order, the
multipart part of the `sendDocument` request when one was issued, the
`file_id` of the `getFile` request body when one was issued, and the exit. -/
structure RunTrace where
  messages : List Msg
  uploadedPart : Option Part
  resolveRequest : Option String
  exit : ProcExit
deriving DecidableEq

/-- The `getFile` step (main.rs lines 291-324): serialize
`RequestGetFile called with file_id` (always succeeds for a one-string struct), POST it,
deserialize the response.  A deserialization failure propagates out of
`main` through `?` as `Err`, exiting 1; on success the download URL is
built with `get_api_file_url` and printed, and `main` returns `Ok(())`. -/
def resolveStep (cfg : Config) (msgs : List Msg) (upart : Part)
    (fid : String) (resolveBody : Option Json) : RunTrace :=
  match parseGetFileResponse resolveBody with
  | none => ⟨msgs, some upart, some fid, .code 1⟩
  | some resp =>
      ⟨msgs ++ [.downloadUrl (cfg.get_api_file_url resp.result.file_path)],
        some upart, some fid, .code 0⟩

/-- The upload response handling (main.rs lines 271-289) followed by the
`getFile` step.  `file_id` starts as the empty string.  On a deserialized
envelope, `!r.ok` and `r.result.is_none()` each print `Uploading error`
WITHOUT returning; `r.result.unwrap()` then panics when `result` is
absent.  On a deserialization error the `Err` arm prints the error and
control falls through to the `getFile` step with the empty `file_id`. -/
def uploadStage (cfg : Config) (contents : List Nat)
    (uploadBody resolveBody : Option Json) : RunTrace :=
  let upart := buildUploadForm contents
  match parseUploadResponse uploadBody with
  | some r =>
      let errs : List Msg :=
        (if r.ok then [] else [.uploadingError]) ++
        (if r.result.isNone then [.uploadingError] else [])
      match r.result with
      | none => ⟨errs, some upart, none, .panicked⟩
      | some res =>
          resolveStep cfg (errs ++ [.fileId res.document.file_id]) upart
            res.document.file_id resolveBody
  | none => resolveStep cfg [.deserializeError] upart "" resolveBody

/-- The whole of `main` (main.rs lines 142-325) as a function from the
external inputs to the observable trace.  Every early `return Ok(())`
becomes a trace with exit code 0; the file-size check uses
`metadata().map(m.len).unwrap_or(0)` exactly as line 181 does. -/
def teledropMain (inp : MainInputs) : RunTrace :=
  match inp.config with
  | none => ⟨[.configError], none, none, .code 0⟩
  | some cfg =>
      let msgs0 : List Msg :=
        (if cfg.bot_token = "" then [.missingBotToken] else []) ++
        (if cfg.chat_id = "" then [.missingChatId] else [])
      if cfg.bot_token = "" ∨ cfg.chat_id = "" then
        ⟨msgs0 ++ [.setupPrompt], none, none, .code 0⟩
      else
        match inp.arg1 with
        | none => ⟨[.noFilename], none, none, .code 0⟩
        | some _ =>
            if inp.fileOpens then
              if FILE_SIZE_LIMMIT < inp.metadataLen.getD 0 then
                ⟨[.fileTooBig], none, none, .code 0⟩
              else
                uploadStage cfg inp.contents inp.uploadBody inp.resolveBody
            else
              ⟨[.fileNotFound], none, none, .code 0⟩

/-! ### Concrete inputs used to evaluate the model -/

/-- A full `result` object as the live `sendDocument` endpoint returns it:
all fields of `TelegramResult` (and of its nested structs) are present.
Its document carries `file_id` `ABC123`. -/
def sampleResultJson : Json :=
  .obj [("message_id", .num 7),
        ("from", .obj [("id", .num 1), ("is_bot", .bool true),
          ("first_name", .str "teledrop"), ("username", .str "teledrop_bot")]),
        ("chat", .obj [("id", .num 42), ("first_name", .str "user"),
          ("username", .str "user"), ("type", .str "private")]),
        ("date", .num 1700000000),
        ("document", .obj [("file_name", .str "filename.bin"),
          ("mime_type", .str "application/octet-stream"),
          ("file_id", .str "ABC123"), ("file_unique_id", .str "U1"),
          ("file_size", .num 500)])]

/-- The deserialization of `sampleResultJson`. -/
def sampleResult : TelegramResult :=
  ⟨7, ⟨1, true, "teledrop", "teledrop_bot"⟩, ⟨42, "user", "user", "private"⟩,
    1700000000, ⟨"filename.bin", "application/octet-stream", "ABC123", "U1", 500⟩⟩

/-- A full success envelope for the upload response. -/
def sampleUploadOkJson : Json :=
  .obj [("ok", .bool true), ("result", sampleResultJson)]

/-- A well-shaped `getFile` response whose success flag is `false`. -/
def resolveOkFalseJson : Json :=
  .obj [("ok", .bool false),
        ("result", .obj [("file_id", .str "F1"), ("file_unique_id", .str "U2"),
          ("file_size", .num 500), ("file_path", .str "documents/file_1.bin")])]

/-- A well-shaped successful `getFile` response. -/
def resolveOkTrueJson : Json :=
  .obj [("ok", .bool true),
        ("result", .obj [("file_id", .str "F1"), ("file_unique_id", .str "U2"),
          ("file_size", .num 500), ("file_path", .str "documents/file_1.bin")])]

/-- Upload response envelope `ok: false` with no `result` member. -/
def uploadOkFalseJson : Json := .obj [("ok", .bool false)]

/-- Run where the upload endpoint answers `ok: false` without a `result`. -/
def c1Inputs : MainInputs :=
  ⟨some ⟨"T", "42"⟩, some "file.bin", true, some 500, [1, 2, 3],
    some uploadOkFalseJson, none⟩

/-- Run on a 20,000,001-byte file. -/
def c2Inputs : MainInputs :=
  ⟨some ⟨"T", "42"⟩, some "big.bin", true, some 20000001, [], none, none⟩

/-- Run on a 20,000,001-byte file (exit-code scenario). -/
def c3Inputs : MainInputs :=
  ⟨some ⟨"T", "42"⟩, some "big.bin", true, some 20000001, [], none, none⟩

/-- Run where the upload endpoint answers with a body that is not valid
JSON (so the struct deserialization fails). -/
def c4Inputs : MainInputs :=
  ⟨some ⟨"T", "42"⟩, some "file.bin", true, some 500, [7], none, none⟩

/-- Run where the upload succeeds and the `getFile` endpoint answers with
a well-shaped body whose success flag is `false`. -/
def c5Inputs : MainInputs :=
  ⟨some ⟨"T", "42"⟩, some "file.bin", true, some 500, [7],
    some sampleUploadOkJson, some resolveOkFalseJson⟩

/-- Run where the upload succeeds and the `getFile` body does not
deserialize. -/
def c5AmendInputs : MainInputs :=
  ⟨some ⟨"T", "42"⟩, some "file.bin", true, some 500, [7],
    some sampleUploadOkJson, none⟩

/-- The spec's minimal success envelope: only
`ok`, `result.document.file_id` present. -/
def c6MinimalEnvelopeJson : Json :=
  .obj [("ok", .bool true),
        ("result", .obj [("document", .obj [("file_id", .str "ABC123")])])]

/-- Run where the upload endpoint answers with the spec's minimal success
envelope. -/
def c6MinInputs : MainInputs :=
  ⟨some ⟨"T", "42"⟩, some "file.bin", true, some 500, [7],
    some c6MinimalEnvelopeJson, none⟩

/-- Run where the upload endpoint answers with the full success envelope
and the resolve succeeds. -/
def c6FullInputs : MainInputs :=
  ⟨some ⟨"T", "42"⟩, some "file.bin", true, some 500, [7],
    some sampleUploadOkJson, some resolveOkTrueJson⟩

/-- Run whose CLI argument names a `.png` file. -/
def c8PngInputs : MainInputs :=
  ⟨some ⟨"T", "42"⟩, some "photo.png", true, some 500, [1, 2], none, none⟩

/-- Run whose CLI argument names a `.pdf` file. -/
def c8PdfInputs : MainInputs :=
  ⟨some ⟨"T", "42"⟩, some "report.pdf", true, some 500, [1, 2], none, none⟩

/-- Run with an empty `bot_token` in the loaded config. -/
def c9Inputs : MainInputs :=
  ⟨some ⟨"", "42"⟩, some "file.bin", true, some 500, [7], none, none⟩

/-- Run where reading the file metadata fails. -/
def c10Inputs : MainInputs :=
  ⟨some ⟨"T", "42"⟩, some "file.bin", true, none, [7], none, none⟩

/-! ### Helper lemmas about the stages -/

theorem resolveStep_uploadedPart (cfg : Config) (msgs : List Msg)
    (upart : Part) (fid : String) (rb : Option Json) :
    (resolveStep cfg msgs upart fid rb).uploadedPart = some upart := by
  unfold resolveStep
  cases parseGetFileResponse rb <;> rfl

theorem resolveStep_resolveRequest (cfg : Config) (msgs : List Msg)
    (upart : Part) (fid : String) (rb : Option Json) :
    (resolveStep cfg msgs upart fid rb).resolveRequest = some fid := by
  unfold resolveStep
  cases parseGetFileResponse rb <;> rfl

theorem uploadStage_uploadedPart (cfg : Config) (contents : List Nat)
    (ub rb : Option Json) :
    (uploadStage cfg contents ub rb).uploadedPart =
      some (buildUploadForm contents) := by
  unfold uploadStage
  rcases hp : parseUploadResponse ub with _ | r
  · simp [resolveStep_uploadedPart]
  · rcases hr : r.result with _ | res
    · simp [hr]
    · simp [hr, resolveStep_uploadedPart]

theorem teledropMain_eq_uploadStage (inp : MainInputs) (cfg : Config)
    (f : String) (hc : inp.config = some cfg) (ht : ¬ cfg.bot_token = "")
    (hch : ¬ cfg.chat_id = "") (ha : inp.arg1 = some f)
    (ho : inp.fileOpens = true)
    (hs : ¬ FILE_SIZE_LIMMIT < inp.metadataLen.getD 0) :
    teledropMain inp =
      uploadStage cfg inp.contents inp.uploadBody inp.resolveBody := by
  simp [teledropMain, hc, ha, ho, ht, hch, hs]

/-! ### Claims -/

/-- C1: the claim says that on an upload envelope with `ok: false` or a
missing `result`, the program signals `UploadRejected`, returns no document
identifier, aborts before the resolver step and does not crash.  The code
instead prints `Uploading error` without returning and then calls
`r.result.unwrap()`: on the envelope with `ok: false` and no `result` the
process panics. -/
theorem c1_upload_rejected_crashes :
    (teledropMain c1Inputs).exit = ProcExit.panicked ∧
    (teledropMain c1Inputs).messages = [Msg.uploadingError, Msg.uploadingError] ∧
    (teledropMain c1Inputs).resolveRequest = none := by decide

/-- C2: for every run whose file metadata reports a byte length above
20,000,000, the size check fires: the too-big diagnostic is the only
output, no multipart upload request is built or issued and no `getFile`
request is issued. -/
theorem c2_oversized_rejected_before_upload (inp : MainInputs) (cfg : Config)
    (f : String) (n : Nat) (hc : inp.config = some cfg)
    (ht : ¬ cfg.bot_token = "") (hch : ¬ cfg.chat_id = "")
    (ha : inp.arg1 = some f) (ho : inp.fileOpens = true)
    (hm : inp.metadataLen = some n) (hn : 20000000 < n) :
    (teledropMain inp).messages = [Msg.fileTooBig] ∧
    (teledropMain inp).uploadedPart = none ∧
    (teledropMain inp).resolveRequest = none := by
  have hs : FILE_SIZE_LIMMIT < inp.metadataLen.getD 0 := by
    rw [hm]
    simpa [FILE_SIZE_LIMMIT] using hn
  simp [teledropMain, hc, ha, ho, ht, hch, hs]

/-- Witness for C2 at a 20,000,001-byte file. -/
theorem c2_oversized_rejected_before_upload_witness :
    (teledropMain c2Inputs).messages = [Msg.fileTooBig] ∧
    (teledropMain c2Inputs).uploadedPart = none ∧
    (teledropMain c2Inputs).resolveRequest = none :=
  c2_oversized_rejected_before_upload c2Inputs ⟨"T", "42"⟩ "big.bin" 20000001
    rfl (by decide) (by decide) rfl rfl rfl (by norm_num)

/-- C3 counterexample: the claim says an oversized file terminates the
process with exit code 1.  On a 20,000,001-byte file the code reaches the
size check (the too-big diagnostic is printed) and then executes
`return Ok(())`, so the process exits with code 0, not 1. -/
theorem c3_oversized_exit_code_counterexample :
    (teledropMain c3Inputs).messages = [Msg.fileTooBig] ∧
    (teledropMain c3Inputs).exit = ProcExit.code 0 ∧
    (teledropMain c3Inputs).exit ≠ ProcExit.code 1 := by decide

/-- C3 amended: an oversized file is reported and the process exits with
code 0, exactly like the other recognized configuration/input problems. -/
theorem c3_oversized_exits_zero (inp : MainInputs) (cfg : Config)
    (f : String) (n : Nat) (hc : inp.config = some cfg)
    (ht : ¬ cfg.bot_token = "") (hch : ¬ cfg.chat_id = "")
    (ha : inp.arg1 = some f) (ho : inp.fileOpens = true)
    (hm : inp.metadataLen = some n) (hn : 20000000 < n) :
    (teledropMain inp).messages = [Msg.fileTooBig] ∧
    (teledropMain inp).exit = ProcExit.code 0 := by
  have hs : FILE_SIZE_LIMMIT < inp.metadataLen.getD 0 := by
    rw [hm]
    simpa [FILE_SIZE_LIMMIT] using hn
  simp [teledropMain, hc, ha, ho, ht, hch, hs]

/-- Witness for the amended C3 at a 20,000,001-byte file. -/
theorem c3_oversized_exits_zero_witness :
    (teledropMain c3Inputs).messages = [Msg.fileTooBig] ∧
    (teledropMain c3Inputs).exit = ProcExit.code 0 :=
  c3_oversized_exits_zero c3Inputs ⟨"T", "42"⟩ "big.bin" 20000001
    rfl (by decide) (by decide) rfl rfl rfl (by norm_num)

/-- C4: the claim says that on an upload response that is not valid JSON
the program reports the malformed response, exits 0 and never issues the
`getFile` request.  The code prints the deserialization error but does not
return: it falls through and issues the `getFile` request with the empty
`file_id`; here the resolver's answer does not deserialize either, so `?`
propagates the error and the process exits 1. -/
theorem c4_malformed_upload_still_resolves :
    (teledropMain c4Inputs).messages = [Msg.deserializeError] ∧
    (teledropMain c4Inputs).resolveRequest = some "" ∧
    (teledropMain c4Inputs).exit = ProcExit.code 1 := by decide

/-- C5 counterexample: the claim says a resolver response whose success
flag is false leads to `ResolveFailed` and a non-zero exit instead of a
printed URL.  On a well-shaped `getFile` body with `ok: false` the code
never inspects the flag: it prints the download URL and exits 0. -/
theorem c5_ok_false_prints_url_counterexample :
    (teledropMain c5Inputs).exit = ProcExit.code 0 ∧
    (teledropMain c5Inputs).messages =
      [Msg.fileId "ABC123",
       Msg.downloadUrl "https://api.telegram.org/bot/file/T/documents/file_1.bin"] := by
  decide

/-- C5 amended: the run terminates with exit code 1 and prints no download
URL exactly when the `getFile` response body fails to deserialize into
`FileUploadResponse` (the shape real `ok: false` answers take, since they
lack the mandatory `result`); the `ok` flag and the emptiness of
`file_path` themselves are never examined. -/
theorem c5_resolve_parse_failure_exits_nonzero (inp : MainInputs)
    (cfg : Config) (f : String) (r : TelegramResponseDocument)
    (res : TelegramResult) (hc : inp.config = some cfg)
    (ht : ¬ cfg.bot_token = "") (hch : ¬ cfg.chat_id = "")
    (ha : inp.arg1 = some f) (ho : inp.fileOpens = true)
    (hs : ¬ FILE_SIZE_LIMMIT < inp.metadataLen.getD 0)
    (hp : parseUploadResponse inp.uploadBody = some r)
    (hres : r.result = some res)
    (hr : parseGetFileResponse inp.resolveBody = none) :
    (teledropMain inp).exit = ProcExit.code 1 ∧
    ((teledropMain inp).messages.all fun m => !m.isDownloadUrl) = true := by
  rw [teledropMain_eq_uploadStage inp cfg f hc ht hch ha ho hs]
  unfold uploadStage
  rw [hp]
  simp only [hres]
  unfold resolveStep
  rw [hr]
  cases r.ok <;> simp [Msg.isDownloadUrl]

/-- Witness for the amended C5: upload succeeds, resolver body does not
deserialize; exit code 1 and no URL printed. -/
theorem c5_resolve_parse_failure_exits_nonzero_witness :
    (teledropMain c5AmendInputs).exit = ProcExit.code 1 ∧
    ((teledropMain c5AmendInputs).messages.all fun m => !m.isDownloadUrl) = true :=
  c5_resolve_parse_failure_exits_nonzero c5AmendInputs ⟨"T", "42"⟩ "file.bin"
    ⟨true, some sampleResult⟩ sampleResult rfl (by decide) (by decide) rfl rfl
    (by decide) (by decide) rfl rfl

/-- C6 counterexample: the claim says every envelope of the shape
`ok: true, result.document.file_id = X` parses and yields `X`.  The derived
deserializer requires `message_id`, `from`, `chat`, `date` and the full
document fields, so the minimal envelope with `file_id` `ABC123` fails to
deserialize: the run reports the deserialization error and forwards the
empty string, not `ABC123`, to the resolver. -/
theorem c6_minimal_envelope_counterexample :
    parseUploadResponse (some c6MinimalEnvelopeJson) = none ∧
    (teledropMain c6MinInputs).messages = [Msg.deserializeError] ∧
    (teledropMain c6MinInputs).resolveRequest = some "" := by decide

/-- C6 amended: for every upload response body that deserializes into
`TelegramResponseDocument` (which requires the full Telegram result shape)
with `ok: true` and a present `result`, the run prints exactly the
embedded `document.file_id` and sends exactly it in the `getFile`
request. -/
theorem c6_parsed_ok_envelope_yields_file_id (inp : MainInputs)
    (cfg : Config) (f : String) (r : TelegramResponseDocument)
    (res : TelegramResult) (hc : inp.config = some cfg)
    (ht : ¬ cfg.bot_token = "") (hch : ¬ cfg.chat_id = "")
    (ha : inp.arg1 = some f) (ho : inp.fileOpens = true)
    (hs : ¬ FILE_SIZE_LIMMIT < inp.metadataLen.getD 0)
    (hp : parseUploadResponse inp.uploadBody = some r)
    (hok : r.ok = true) (hres : r.result = some res) :
    (teledropMain inp).resolveRequest = some res.document.file_id ∧
    Msg.fileId res.document.file_id ∈ (teledropMain inp).messages := by
  rw [teledropMain_eq_uploadStage inp cfg f hc ht hch ha ho hs]
  unfold uploadStage
  rw [hp]
  simp only [hok, hres]
  unfold resolveStep
  cases parseGetFileResponse inp.resolveBody <;> simp

/-- Witness for the amended C6 at the full success envelope with
`file_id` `ABC123`. -/
theorem c6_parsed_ok_envelope_yields_file_id_witness :
    (teledropMain c6FullInputs).resolveRequest = some sampleResult.document.file_id ∧
    Msg.fileId sampleResult.document.file_id ∈ (teledropMain c6FullInputs).messages :=
  c6_parsed_ok_envelope_yields_file_id c6FullInputs ⟨"T", "42"⟩ "file.bin"
    ⟨true, some sampleResult⟩ sampleResult rfl (by decide) (by decide) rfl rfl
    (by decide) (by decide) rfl rfl

/-- C7: `get_api_file_url` is a pure function of the credentials and the
relative path; for every token and path the produced string is exactly
the base constant, then `/file/`, then the token, then `/`, then the
path.  Determinism is immediate: the result is a function of its
arguments and involves no state. -/
theorem c7_get_api_file_url_pure (cfg : Config) (p : String) :
    cfg.get_api_file_url p =
      API_URL_BASE ++ "/file/" ++ cfg.bot_token ++ "/" ++ p := rfl

/-- C8 counterexample: the claim says the part's content type is guessed
from the filename's extension, with the generic binary type only as the
fallback for unknown extensions.  The code hardcodes both the part file
name (`filename.bin`) and the mime type (`application/octet-stream`):
a `.png` file and a `.pdf` file produce identical parts carrying the
generic binary type. -/
theorem c8_mime_constant_counterexample :
    (teledropMain c8PngInputs).uploadedPart =
      some ⟨"document", [1, 2], "filename.bin", "application/octet-stream"⟩ ∧
    (teledropMain c8PdfInputs).uploadedPart =
      (teledropMain c8PngInputs).uploadedPart := by decide

/-- C8 amended: every issued upload request carries one part named
`document` with the file's bytes, the fixed part file name `filename.bin`
and the fixed content type `application/octet-stream`, independent of the
input filename. -/
theorem c8_upload_part_hardcoded (inp : MainInputs) (cfg : Config)
    (f : String) (hc : inp.config = some cfg)
    (ht : ¬ cfg.bot_token = "") (hch : ¬ cfg.chat_id = "")
    (ha : inp.arg1 = some f) (ho : inp.fileOpens = true)
    (hs : ¬ FILE_SIZE_LIMMIT < inp.metadataLen.getD 0) :
    (teledropMain inp).uploadedPart = some (buildUploadForm inp.contents) ∧
    (buildUploadForm inp.contents).name = "document" ∧
    (buildUploadForm inp.contents).file_name = "filename.bin" ∧
    (buildUploadForm inp.contents).mime = "application/octet-stream" := by
  rw [teledropMain_eq_uploadStage inp cfg f hc ht hch ha ho hs]
  exact ⟨uploadStage_uploadedPart cfg inp.contents inp.uploadBody inp.resolveBody,
    rfl, rfl, rfl⟩

/-- Witness for the amended C8 at a `.png` input filename. -/
theorem c8_upload_part_hardcoded_witness :
    (teledropMain c8PngInputs).uploadedPart =
      some (buildUploadForm c8PngInputs.contents) ∧
    (buildUploadForm c8PngInputs.contents).name = "document" ∧
    (buildUploadForm c8PngInputs.contents).file_name = "filename.bin" ∧
    (buildUploadForm c8PngInputs.contents).mime = "application/octet-stream" :=
  c8_upload_part_hardcoded c8PngInputs ⟨"T", "42"⟩ "photo.png" rfl
    (by decide) (by decide) rfl rfl (by decide)

/-- C9: whenever the loaded config has an empty `bot_token` or an empty
`chat_id`, the run prints the setup prompt, exits with code 0 and issues
neither the upload nor the `getFile` request. -/
theorem c9_missing_config_no_network (inp : MainInputs) (cfg : Config)
    (hc : inp.config = some cfg)
    (h : cfg.bot_token = "" ∨ cfg.chat_id = "") :
    Msg.setupPrompt ∈ (teledropMain inp).messages ∧
    (teledropMain inp).uploadedPart = none ∧
    (teledropMain inp).resolveRequest = none ∧
    (teledropMain inp).exit = ProcExit.code 0 := by
  simp [teledropMain, hc, h]

/-- Witness for C9 at a config with an empty `bot_token`. -/
theorem c9_missing_config_no_network_witness :
    Msg.setupPrompt ∈ (teledropMain c9Inputs).messages ∧
    (teledropMain c9Inputs).uploadedPart = none ∧
    (teledropMain c9Inputs).resolveRequest = none ∧
    (teledropMain c9Inputs).exit = ProcExit.code 0 :=
  c9_missing_config_no_network c9Inputs ⟨"", "42"⟩ rfl (Or.inl rfl)

/-- C10: when reading the file metadata fails, `unwrap_or(0)` silently
treats the byte length as 0: the whole run is indistinguishable from a run
on a 0-byte metadata result, the size check passes and the upload request
is issued; no metadata diagnostic exists anywhere in the flow. -/
theorem c10_metadata_error_size_zero (inp : MainInputs) (cfg : Config)
    (f : String) (hm : inp.metadataLen = none) (hc : inp.config = some cfg)
    (ht : ¬ cfg.bot_token = "") (hch : ¬ cfg.chat_id = "")
    (ha : inp.arg1 = some f) (ho : inp.fileOpens = true) :
    teledropMain inp = teledropMain { inp with metadataLen := some 0 } ∧
    (teledropMain inp).uploadedPart = some (buildUploadForm inp.contents) := by
  have hs : ¬ FILE_SIZE_LIMMIT < inp.metadataLen.getD 0 := by
    rw [hm]
    simp
  have h1 := teledropMain_eq_uploadStage inp cfg f hc ht hch ha ho hs
  have hs2 : ¬ FILE_SIZE_LIMMIT <
      ({ inp with metadataLen := some 0 } : MainInputs).metadataLen.getD 0 := by
    simp
  have h2 := teledropMain_eq_uploadStage { inp with metadataLen := some 0 }
    cfg f (by simpa using hc) ht hch (by simpa using ha) (by simpa using ho) hs2
  refine ⟨?_, ?_⟩
  · rw [h1, h2]
  · rw [h1]
    exact uploadStage_uploadedPart cfg inp.contents inp.uploadBody inp.resolveBody

/-- Witness for C10: metadata read fails, upload is still issued. -/
theorem c10_metadata_error_size_zero_witness :
    teledropMain c10Inputs = teledropMain { c10Inputs with metadataLen := some 0 } ∧
    (teledropMain c10Inputs).uploadedPart = some (buildUploadForm c10Inputs.contents) :=
  c10_metadata_error_size_zero c10Inputs ⟨"T", "42"⟩ "file.bin" rfl rfl
    (by decide) (by decide) rfl rfl

end Teledrop
